import Mathlib

/-!
Shallow embedding of `main.py` of the RUGGUARD_LLM repository.

External collaborators (the X API client `x_client`, the Gemini model, the
wall clock and the `strftime` formatter of the datetime library) are
modelled as an explicit environment `Env` of oracle functions; each
external call either returns a value or signals an exception (`Except`).
Python `try/except Exception` blocks become total Lean functions whose
error branches return the fixed fallback strings of the source.  Machine
floats are idealized as exact rationals (ℚ); Python `round(x, 2)` is
modelled as round-half-to-even on the scaled rational.  Timestamps are
idealized as whole seconds since the epoch (ℤ); `timedelta.days` is the
floor division of the second difference by 86400.

Each embedded function carries, next to its output, the number of calls it
made to the relevant external services, so that the claims about calls
never happening ("the LLM is never invoked", "no reply is posted") are
statable as equations on those counters.
-/

/-- Trigger phrase from the bot settings (`TRIGGER_PHRASE` in `main.py`). -/
def TRIGGER_PHRASE : String := "riddle me this"

/-- One entry of a tweet's `referenced_tweets` list: a type tag (such as
"replied_to" or "quoted") and the id of the referenced tweet. -/
structure RefTweet where
  type : String
  id : Nat
deriving DecidableEq

/-- An incoming stream event as seen by `BotStreamListener.on_tweet`:
id, body text, and the optional `referenced_tweets` list (`none` models
Python `None`; `some []` models an empty list, which is falsy as well). -/
structure Tweet where
  id : Nat
  text : String
  referenced_tweets : Option (List RefTweet)
deriving DecidableEq

/-- Profile attributes returned by `x_client.get_user` with the requested
user fields: handle, creation timestamp (epoch seconds), optional
description (`none` models an absent field, `some ""` an empty one),
public metrics counts, and the verification flag. -/
structure UserData where
  username : String
  created_at : Int
  description : Option String
  followers_count : Nat
  following_count : Nat
  verified : Bool
deriving DecidableEq

/-- The `compiled_data` dictionary assembled by `get_user_data_and_analyze`
(the spec's UserProfileRecord).  `created_at` here is the human-readable
month/year label produced by `strftime` on the creation timestamp. -/
structure CompiledData where
  username : String
  age_days : Int
  created_at : String
  followers : Nat
  following : Nat
  follower_ratio : ℚ
  is_verified : Bool
  bio : String
  recent_tweets : String
deriving DecidableEq

/-- Environment of external collaborators.  Every field models one
operation of an external client; `.error ()` models the operation raising
an exception.  `getUser` returns the response's `.data` (`none` when the
lookup yields no profile); `getUsersTweets` returns the tweet texts of the
response's `.data` (`none` models Python `None`); `getTweet` returns
`none` when the response's `.data` is `None` (so that the subsequent
attribute access raises) and `some a` with `a` the optional `author_id`
otherwise; `gemini` is `generate_content` followed by reading `.text`;
`createTweet` posts a reply.  `now` is the current epoch second and
`strftimeMonthYear` the datetime library's `strftime` with format
`%b %Y`. -/
structure Env where
  getUser : String → Except Unit (Option UserData)
  getUsersTweets : String → Except Unit (Option (List String))
  getTweet : Nat → Except Unit (Option (Option String))
  gemini : String → Except Unit String
  createTweet : String → Nat → Except Unit Unit
  now : Int
  strftimeMonthYear : Int → String

/-- Round-half-to-even to the nearest integer, the semantics of Python's
builtin `round` (idealized over exact rationals). -/
def roundHalfEven (q : ℚ) : Int :=
  if q - ⌊q⌋ < 1/2 then ⌊q⌋
  else if 1/2 < q - ⌊q⌋ then ⌊q⌋ + 1
  else if ⌊q⌋ % 2 = 0 then ⌊q⌋ else ⌊q⌋ + 1

/-- Python `round(x, 2)` on the idealized rational value. -/
def pyRound2 (q : ℚ) : ℚ := (roundHalfEven (q * 100) : ℚ) / 100

/-- Python truthiness coalescing `s or fallback` for an optional string:
both an absent value and an empty string are falsy. -/
def pyOr (s : Option String) (fallback : String) : String :=
  match s with
  | some str => if str = "" then fallback else str
  | none => fallback

/-- Rendering of the rounded follower ratio inside the f-string, mimicking
Python's decimal printing of a float rounded to two places (the value is
an integer multiple of 1/100; a trailing zero in the hundredths place is
dropped, as Python does, and a whole number prints with one decimal). -/
def ratioToString (q : ℚ) : String :=
  let z : Int := ⌊q * 100⌋
  let ip : Int := z.fdiv 100
  let rem : Nat := (z % 100).toNat
  if rem % 10 = 0 then toString ip ++ "." ++ toString (rem / 10)
  else if rem < 10 then toString ip ++ ".0" ++ toString rem
  else toString ip ++ "." ++ toString rem

/-- The f-string assembled at the top of `get_llm_analysis` (the spec's
Prompt Builder), reproduced with its source indentation. -/
def buildPrompt (user_data : CompiledData) : String :=
  "\n    You are an expert crypto project analyst specializing in social media presence on X (formerly Twitter).\n" ++
  "    Your task is to provide a concise, neutral trustworthiness analysis of a user based on the data provided.\n" ++
  "    Focus on identifying potential red flags (e.g., spam, engagement farming, suspicious language) or positive signals (e.g., genuine interaction, clear project focus).\n" ++
  "\n" ++
  "    **Data for User @" ++ user_data.username ++ ":**\n" ++
  "    - **Account Age:** " ++ toString user_data.age_days ++ " days (Created: " ++ user_data.created_at ++ ")\n" ++
  "    - **Follower Count:** " ++ toString user_data.followers ++ "\n" ++
  "    - **Following Count:** " ++ toString user_data.following ++ "\n" ++
  "    - **Follower/Following Ratio:** " ++ ratioToString user_data.follower_ratio ++ "\n" ++
  "    - **X Verified Status:** " ++ (if user_data.is_verified then "Yes" else "No") ++ "\n" ++
  "    - **User Bio:** \"" ++ user_data.bio ++ "\"\n" ++
  "    - **Recent Tweets:**\n" ++
  "    " ++ user_data.recent_tweets ++ "\n" ++
  "\n" ++
  "    **Instructions:**\n" ++
  "    1. Write a one-paragraph summary of your findings.\n" ++
  "    2. Conclude with a final \"Trust Signal\" on a new line. The signal must be one of: Positive, Neutral, Caution, or Red Flag.\n" ++
  "    3. Your entire response should only be the summary paragraph and the Trust Signal line. Do not be conversational.\n" ++
  "    "

/-- Embedding of `get_llm_analysis`: build the prompt, call the Gemini
model, strip the response; on any exception return the fixed fallback
string.  The Gemini oracle is consulted exactly once per invocation. -/
def get_llm_analysis (env : Env) (user_data : CompiledData) : String :=
  match env.gemini (buildPrompt user_data) with
  | .ok text => text.trim
  | .error _ => "LLM analysis could not be performed due to an API error."

/-- The `recent_tweets_text` expression of `get_user_data_and_analyze`:
join the tweet texts with the per-line marker, or the placeholder when the
response data is `None` or an empty list (both falsy in Python). -/
def recent_tweets_text (tweetsData : Option (List String)) : String :=
  match tweetsData with
  | some ts =>
    if ts.isEmpty then "No recent tweets found."
    else String.intercalate "\n" (ts.map (fun t => "- '" ++ t ++ "'"))
  | none => "No recent tweets found."

/-- The `compiled_data` dictionary literal of `get_user_data_and_analyze`,
lines 101 to 114 of `main.py`: derived metrics and fallbacks computed from
the fetched profile. -/
def compile_data (env : Env) (user : UserData) (rt : String) : CompiledData :=
  let follower_ratio : ℚ :=
    if user.following_count > 0
    then (user.followers_count : ℚ) / (user.following_count : ℚ)
    else 0
  { username := user.username
  , age_days := (env.now - user.created_at).fdiv 86400
  , created_at := env.strftimeMonthYear user.created_at
  , followers := user.followers_count
  , following := user.following_count
  , follower_ratio := pyRound2 follower_ratio
  , is_verified := user.verified
  , bio := pyOr user.description "Not provided."
  , recent_tweets := rt }

/-- Result of one aggregation-and-analysis run: the returned string and
the number of calls made to the Gemini oracle during the run. -/
structure AggResult where
  output : String
  llmCalls : Nat
deriving DecidableEq

/-- Embedding of `get_user_data_and_analyze`.  The whole body sits in a
`try` whose `except Exception` clause returns the fixed fetch-error
string, so any exception of either fetch is mapped to that string and the
library's raw exception never escapes; an empty profile lookup returns
the user-not-found string before any further call. -/
def get_user_data_and_analyze (env : Env) (user_id : String) : AggResult :=
  match env.getUser user_id with
  | .error _ => ⟨"Analysis Failed: Could not retrieve complete user data from X.", 0⟩
  | .ok none => ⟨"Analysis Failed: User not found.", 0⟩
  | .ok (some user) =>
    match env.getUsersTweets user_id with
    | .error _ => ⟨"Analysis Failed: Could not retrieve complete user data from X.", 0⟩
    | .ok tweetsData =>
      let rt := recent_tweets_text tweetsData
      let compiled_data := compile_data env user rt
      let llm_summary := get_llm_analysis env compiled_data
      ⟨"🤖 LLM-Powered Analysis for @" ++ user.username ++ "\n" ++
       "-----------------------------------\n" ++
       llm_summary ++ "\n" ++
       "-----------------------------------\n" ++
       "Analyzed by #ProjectRUGGUARD w/ Gemini 1.5 Flash", 1⟩

/-- The `is_reply` test of `on_tweet`: the `referenced_tweets` list is
truthy and its FIRST element has type `replied_to`. -/
def is_reply (t : Tweet) : Bool :=
  match t.referenced_tweets with
  | some (r :: _) => r.type == "replied_to"
  | _ => false

/-- Boolean substring containment on character lists: Python's `in` test
for strings (the pattern occurs contiguously somewhere in the text). -/
def listContains (pat s : List Char) : Bool :=
  (List.range (s.length + 1)).any (fun i => pat.isPrefixOf (s.drop i))

/-- Per-character lowering of a string's character list, the embedding of
Python `str.lower` (idealized to the character-wise ASCII case map). -/
def lowerChars (s : String) : List Char :=
  s.data.map Char.toLower

/-- The trigger test of `on_tweet`: the lowered trigger phrase is a
substring of the lowered body text. -/
def containsTrigger (s : String) : Bool :=
  listContains (lowerChars TRIGGER_PHRASE) (lowerChars s)

/-- Outcome of one `on_tweet` dispatch.  `notTriggered` is the silent
fall-through of the filter; `replied` carries the posted reply text;
`failedLogged` is the `except` clause of `on_tweet`, which logs the error
and returns normally (so the listener keeps running). -/
inductive DispatchOutcome where
  | notTriggered
  | replied (text : String)
  | failedLogged
deriving DecidableEq

/-- External calls made during one `on_tweet` dispatch. -/
structure Trace where
  getTweetCalls : Nat
  aggRuns : Nat
  llmCalls : Nat
  createTweetCalls : Nat
deriving DecidableEq

/-- Embedding of `BotStreamListener.on_tweet`.  The filter rejects unless
`is_reply` and the trigger test both hold; the accepted path resolves the
referenced tweet's author (any exception, a `None` response `.data`, or a
falsy `author_id` all land in the `except` clause: no reply is posted and
the dispatch returns normally), runs the aggregation pipeline, and posts
the report as a reply (a posting exception also lands in the `except`
clause).  The function is total: no exception propagates out of a
dispatch, matching the catch-all `except` of the source. -/
def on_tweet (env : Env) (t : Tweet) : DispatchOutcome × Trace :=
  if is_reply t && containsTrigger t.text then
    match t.referenced_tweets with
    | some (r :: _) =>
      (match env.getTweet r.id with
       | .error _ => (.failedLogged, ⟨1, 0, 0, 0⟩)
       | .ok none => (.failedLogged, ⟨1, 0, 0, 0⟩)
       | .ok (some none) => (.failedLogged, ⟨1, 0, 0, 0⟩)
       | .ok (some (some target_user_id)) =>
         let res := get_user_data_and_analyze env target_user_id
         match env.createTweet res.output t.id with
         | .error _ => (.failedLogged, ⟨1, 1, res.llmCalls, 1⟩)
         | .ok _ => (.replied res.output, ⟨1, 1, res.llmCalls, 1⟩))
    | _ => (.failedLogged, ⟨0, 0, 0, 0⟩)
  else (.notTriggered, ⟨0, 0, 0, 0⟩)

/-! ## Concrete environments and inputs used by witnesses -/

/-- Environment whose external operations all raise. -/
def envAllFail : Env :=
  { getUser := fun _ => .error ()
  , getUsersTweets := fun _ => .error ()
  , getTweet := fun _ => .error ()
  , gemini := fun _ => .error ()
  , createTweet := fun _ _ => .error ()
  , now := 0
  , strftimeMonthYear := fun _ => "" }

/-- Environment whose profile lookup succeeds but yields no profile. -/
def envNoProfile : Env :=
  { envAllFail with getUser := fun _ => .ok none }

/-- A sample fetched profile: created at epoch second 86400, empty
description, 14 followers, 4 following. -/
def userSample : UserData :=
  { username := "alice", created_at := 86400, description := some ""
  , followers_count := 14, following_count := 4, verified := false }

/-- Environment for a fully successful run (except that the Gemini call
raises): all fetches return the sample data, posting succeeds, and the
clock reads epoch second 40000000. -/
def envHappy : Env :=
  { getUser := fun _ => .ok (some userSample)
  , getUsersTweets := fun _ => .ok (some ["gm", "wagmi"])
  , getTweet := fun _ => .ok (some (some "42"))
  , gemini := fun _ => .error ()
  , createTweet := fun _ _ => .ok ()
  , now := 40000000
  , strftimeMonthYear := fun _ => "Jan 1970" }

/-- A triggering reply event: the first referenced tweet is a reply
relation and the body contains the trigger phrase. -/
def tweetTrigger : Tweet :=
  { id := 7, text := "@projectruggaurd riddle me this"
  , referenced_tweets := some [⟨"replied_to", 99⟩] }

/-- A triggering event whose `replied_to` relation is NOT the first entry
of `referenced_tweets` (the first is a quote relation). -/
def tweetQuoteFirst : Tweet :=
  { id := 8, text := "@projectruggaurd riddle me this"
  , referenced_tweets := some [⟨"quoted", 5⟩, ⟨"replied_to", 99⟩] }

/-! ## Helper lemmas -/

lemma roundHalfEven_nonneg (q : ℚ) (h : 0 ≤ q) : 0 ≤ roundHalfEven q := by
  have hf : (0 : Int) ≤ ⌊q⌋ := Int.floor_nonneg.mpr h
  unfold roundHalfEven
  split
  · exact hf
  · split
    · omega
    · split
      · exact hf
      · omega

lemma pyRound2_nonneg (q : ℚ) (h : 0 ≤ q) : 0 ≤ pyRound2 q := by
  have h1 : (0 : Int) ≤ roundHalfEven (q * 100) :=
    roundHalfEven_nonneg _ (by positivity)
  unfold pyRound2
  have h2 : (0 : ℚ) ≤ (roundHalfEven (q * 100) : ℚ) := by exact_mod_cast h1
  positivity

lemma pyRound2_zero : pyRound2 0 = 0 := by
  norm_num [pyRound2, roundHalfEven]

/-! ## Claims -/

/-- C2: if the profile lookup succeeds but yields no profile data, the run
returns exactly "Analysis Failed: User not found." and the Gemini oracle
is consulted zero times. -/
theorem user_not_found_skips_llm (env : Env) (uid : String)
    (h : env.getUser uid = .ok none) :
    get_user_data_and_analyze env uid = ⟨"Analysis Failed: User not found.", 0⟩ := by
  simp [get_user_data_and_analyze, h]

theorem user_not_found_skips_llm_witness :
    get_user_data_and_analyze envNoProfile "12345" =
      ⟨"Analysis Failed: User not found.", 0⟩ :=
  user_not_found_skips_llm envNoProfile "12345" rfl

/-- C3: if the profile fetch raises, or the profile fetch succeeds and the
tweet fetch raises, the run's output is exactly the fixed fetch-error
string; no other exception value ever escapes (the embedding is total and
returns only strings). -/
theorem fetch_failure_fixed_message (env : Env) (uid : String)
    (h : env.getUser uid = .error () ∨
         ∃ u, env.getUser uid = .ok (some u) ∧ env.getUsersTweets uid = .error ()) :
    (get_user_data_and_analyze env uid).output =
      "Analysis Failed: Could not retrieve complete user data from X." := by
  rcases h with h | ⟨u, h1, h2⟩
  · simp [get_user_data_and_analyze, h]
  · simp [get_user_data_and_analyze, h1, h2]

theorem fetch_failure_fixed_message_witness :
    (get_user_data_and_analyze envAllFail "12345").output =
      "Analysis Failed: Could not retrieve complete user data from X." :=
  fetch_failure_fixed_message envAllFail "12345" (Or.inl rfl)

/-- C7: the prompt builder is a pure function of the compiled record:
identical record contents give byte-identical prompt strings. -/
theorem prompt_builder_deterministic (d1 d2 : CompiledData) (h : d1 = d2) :
    buildPrompt d1 = buildPrompt d2 :=
  congrArg buildPrompt h

theorem prompt_builder_deterministic_witness :
    buildPrompt (compile_data envHappy userSample "x") =
      buildPrompt (compile_data envHappy userSample "x") :=
  prompt_builder_deterministic _ _ rfl

/-- C10: a present-but-empty description and an absent description both
produce the fallback bio "Not provided." in the compiled record. -/
theorem empty_bio_falls_back (env : Env) (user : UserData) (rt : String)
    (h : user.description = some "" ∨ user.description = none) :
    (compile_data env user rt).bio = "Not provided." := by
  rcases h with h | h <;> simp [compile_data, pyOr, h]

theorem empty_bio_falls_back_witness :
    (compile_data envHappy userSample "x").bio = "Not provided." :=
  empty_bio_falls_back envHappy userSample "x" (Or.inl rfl)

/-- C5: the compiled follower ratio is 0 when the following count is 0, is
the rounded quotient when the following count is positive, and is a
non-negative rational in every case (no exception, no infinity, no NaN is
representable in the embedding, and the division is guarded). -/
theorem follower_ratio_guarded (env : Env) (user : UserData) (rt : String) :
    (user.following_count = 0 → (compile_data env user rt).follower_ratio = 0) ∧
    (0 < user.following_count →
      (compile_data env user rt).follower_ratio =
        pyRound2 ((user.followers_count : ℚ) / (user.following_count : ℚ))) ∧
    0 ≤ (compile_data env user rt).follower_ratio := by
  refine ⟨?_, ?_, ?_⟩
  · intro h
    simp [compile_data, h, pyRound2_zero]
  · intro h
    simp [compile_data, h]
  · have hr : 0 ≤ (if user.following_count > 0
        then (user.followers_count : ℚ) / (user.following_count : ℚ) else 0) := by
      split
      · positivity
      · exact le_refl 0
    simpa [compile_data] using pyRound2_nonneg _ hr

theorem follower_ratio_guarded_witness :
    (compile_data envHappy userSample "x").follower_ratio =
      pyRound2 ((userSample.followers_count : ℚ) / (userSample.following_count : ℚ)) ∧
    0 ≤ (compile_data envHappy userSample "x").follower_ratio :=
  ⟨(follower_ratio_guarded envHappy userSample "x").2.1 (by decide),
   (follower_ratio_guarded envHappy userSample "x").2.2⟩

/-- C9 counterexample: a profile whose creation timestamp lies in the
future of the clock compiles to a record with a NEGATIVE age_days (here
the clock reads 0 and the account is created at second 86400, giving
age_days = -1), refuting the claim that age_days is always
non-negative. -/
theorem age_days_negative_example :
    (compile_data envAllFail userSample "").age_days = -1 ∧
    (compile_data envAllFail userSample "").age_days < 0 := by
  exact ⟨by decide, by decide⟩

/-- C9 amended: age_days is exactly the floor whole-day difference between
the clock and the creation timestamp, and it is non-negative whenever the
creation timestamp does not lie in the future. -/
theorem age_days_floor_diff (env : Env) (user : UserData) (rt : String) :
    (compile_data env user rt).age_days = (env.now - user.created_at).fdiv 86400 ∧
    (user.created_at ≤ env.now → 0 ≤ (compile_data env user rt).age_days) := by
  constructor
  · simp [compile_data]
  · intro h
    have h0 : (0 : Int) ≤ env.now - user.created_at := by omega
    simp only [compile_data]
    rw [Int.fdiv_eq_ediv _ (by norm_num)]
    exact Int.ediv_nonneg h0 (by norm_num)

theorem age_days_floor_diff_witness :
    userSample.created_at ≤ envHappy.now ∧
    0 ≤ (compile_data envHappy userSample "x").age_days :=
  ⟨by decide, (age_days_floor_diff envHappy userSample "x").2 (by decide)⟩

/-- C8: whenever both fetches succeed (the run reaches the formatting
stage), the output is exactly the template: header line with the username
interpolated, dashed separator, the analysis text, dashed separator, and
the footer, in that order. -/
theorem reply_template_exact (env : Env) (uid : String) (user : UserData)
    (td : Option (List String))
    (h1 : env.getUser uid = .ok (some user))
    (h2 : env.getUsersTweets uid = .ok td) :
    (get_user_data_and_analyze env uid).output =
      "🤖 LLM-Powered Analysis for @" ++ user.username ++ "\n" ++
      "-----------------------------------\n" ++
      get_llm_analysis env (compile_data env user (recent_tweets_text td)) ++ "\n" ++
      "-----------------------------------\n" ++
      "Analyzed by #ProjectRUGGUARD w/ Gemini 1.5 Flash" := by
  simp [get_user_data_and_analyze, h1, h2]

theorem reply_template_exact_witness :
    (get_user_data_and_analyze envHappy "42").output =
      "🤖 LLM-Powered Analysis for @" ++ userSample.username ++ "\n" ++
      "-----------------------------------\n" ++
      get_llm_analysis envHappy
        (compile_data envHappy userSample (recent_tweets_text (some ["gm", "wagmi"]))) ++ "\n" ++
      "-----------------------------------\n" ++
      "Analyzed by #ProjectRUGGUARD w/ Gemini 1.5 Flash" :=
  reply_template_exact envHappy "42" userSample (some ["gm", "wagmi"]) rfl rfl

/-- C4: if the Gemini call raises on every prompt, `get_llm_analysis`
returns exactly the fixed fallback sentence, and an accepted trigger event
whose resolution, fetches and posting all succeed still posts the full
formatted reply with that fallback in place of the analysis paragraph. -/
theorem llm_failure_degrades (env : Env) (t : Tweet) (r : RefTweet)
    (rest : List RefTweet) (uid : String) (user : UserData)
    (td : Option (List String))
    (h0 : t.referenced_tweets = some (r :: rest))
    (h1 : r.type = "replied_to")
    (h2 : containsTrigger t.text = true)
    (h3 : env.getTweet r.id = .ok (some (some uid)))
    (h4 : env.getUser uid = .ok (some user))
    (h5 : env.getUsersTweets uid = .ok td)
    (h6 : ∀ p, env.gemini p = .error ())
    (h7 : ∀ s i, env.createTweet s i = .ok ()) :
    (∀ d, get_llm_analysis env d =
      "LLM analysis could not be performed due to an API error.") ∧
    on_tweet env t =
      (.replied ("🤖 LLM-Powered Analysis for @" ++ user.username ++ "\n" ++
        "-----------------------------------\n" ++
        "LLM analysis could not be performed due to an API error." ++ "\n" ++
        "-----------------------------------\n" ++
        "Analyzed by #ProjectRUGGUARD w/ Gemini 1.5 Flash"),
       ⟨1, 1, 1, 1⟩) := by
  have hir : is_reply t = true := by simp [is_reply, h0, h1]
  constructor
  · intro d
    simp [get_llm_analysis, h6]
  · simp [on_tweet, hir, h2, h0, h3, get_user_data_and_analyze, h4, h5,
      get_llm_analysis, h6, h7]

theorem llm_failure_degrades_witness :
    get_llm_analysis envHappy (compile_data envHappy userSample "x") =
      "LLM analysis could not be performed due to an API error." ∧
    on_tweet envHappy tweetTrigger =
      (.replied ("🤖 LLM-Powered Analysis for @" ++ userSample.username ++ "\n" ++
        "-----------------------------------\n" ++
        "LLM analysis could not be performed due to an API error." ++ "\n" ++
        "-----------------------------------\n" ++
        "Analyzed by #ProjectRUGGUARD w/ Gemini 1.5 Flash"),
       ⟨1, 1, 1, 1⟩) :=
  ⟨(llm_failure_degrades envHappy tweetTrigger ⟨"replied_to", 99⟩ [] "42"
      userSample (some ["gm", "wagmi"]) rfl rfl (by decide) rfl rfl rfl
      (fun _ => rfl) (fun _ _ => rfl)).1 _,
   (llm_failure_degrades envHappy tweetTrigger ⟨"replied_to", 99⟩ [] "42"
      userSample (some ["gm", "wagmi"]) rfl rfl (by decide) rfl rfl rfl
      (fun _ => rfl) (fun _ _ => rfl)).2⟩

/-- C6: for an accepted trigger event, if resolving the referenced tweet
raises, returns no data, or returns no author id, the dispatch ends in
the logged-failure outcome: no aggregation runs, no LLM call is made, and
no reply is ever posted (createTweetCalls = 0).  The embedding of
`on_tweet` is a total function — the catch-all `except` of the source
means no exception escapes a dispatch, so the listener keeps processing
subsequent events. -/
theorem resolution_failure_no_reply (env : Env) (t : Tweet) (r : RefTweet)
    (rest : List RefTweet)
    (h0 : t.referenced_tweets = some (r :: rest))
    (h1 : r.type = "replied_to")
    (h2 : containsTrigger t.text = true)
    (h3 : env.getTweet r.id = .error () ∨ env.getTweet r.id = .ok none ∨
          env.getTweet r.id = .ok (some none)) :
    on_tweet env t = (.failedLogged, ⟨1, 0, 0, 0⟩) := by
  have hir : is_reply t = true := by simp [is_reply, h0, h1]
  rcases h3 with h3 | h3 | h3 <;> simp [on_tweet, hir, h2, h0, h3]

theorem resolution_failure_no_reply_witness :
    on_tweet envAllFail tweetTrigger = (.failedLogged, ⟨1, 0, 0, 0⟩) :=
  resolution_failure_no_reply envAllFail tweetTrigger ⟨"replied_to", 99⟩ []
    rfl rfl (by decide) (Or.inl rfl)

/-- C1 counterexample: an event that HAS a referenced tweet of type
"replied_to" (as its second entry; the first is a quote relation) and
whose body contains the trigger phrase is nevertheless rejected by the
filter with no external call at all — the source tests only the FIRST
entry of `referenced_tweets`, so the claim's acceptance condition (some
referenced tweet of type "replied_to", plus the trigger) does not match
the code. -/
theorem filter_ignores_later_reply_refs :
    ((tweetQuoteFirst.referenced_tweets.getD []).any
        (fun r => r.type == "replied_to") = true ∧
     containsTrigger tweetQuoteFirst.text = true) ∧
    on_tweet envAllFail tweetQuoteFirst = (.notTriggered, ⟨0, 0, 0, 0⟩) := by
  exact ⟨⟨by decide, by decide⟩, by decide⟩

/-- C1 amended: the filter accepts exactly when the FIRST entry of the
event's `referenced_tweets` list has type "replied_to" and the body
contains the trigger phrase case-insensitively; every rejected event
produces no external call whatsoever (zero trace), and every accepted
event proceeds past the filter (its outcome is never the silent
fall-through). -/
theorem filter_accepts_iff_first_ref_reply (env : Env) (t : Tweet) :
    (on_tweet env t = (.notTriggered, ⟨0, 0, 0, 0⟩) ↔
      ¬(is_reply t = true ∧ containsTrigger t.text = true)) ∧
    (is_reply t = true ↔
      ∃ r rest, t.referenced_tweets = some (r :: rest) ∧ r.type = "replied_to") := by
  constructor
  · by_cases hb : is_reply t && containsTrigger t.text
    · rw [Bool.and_eq_true] at hb
      constructor
      · intro h
        exfalso
        revert h
        simp only [on_tweet, hb.1, hb.2, Bool.and_self, if_true]
        rcases ht : t.referenced_tweets with _ | l
        · simp [is_reply, ht] at hb
        · rcases l with _ | ⟨r, rest⟩
          · simp [is_reply, ht] at hb
          · rcases hg : env.getTweet r.id with _ | a
            · simp [hg]
            · rcases a with _ | b
              · simp [hg]
              · rcases b with _ | uid
                · simp [hg]
                · rcases hc : env.createTweet
                      (get_user_data_and_analyze env uid).output t.id with _ | _
                  · simp [hg, hc]
                  · simp [hg, hc]
      · intro hn
        exact absurd ⟨hb.1, hb.2⟩ hn
    · have hb' : (is_reply t && containsTrigger t.text) = false := by
        revert hb
        cases is_reply t && containsTrigger t.text <;> simp
      rw [Bool.and_eq_false_iff] at hb'
      constructor
      · intro _ hcontra
        rcases hb' with hb' | hb'
        · rw [hcontra.1] at hb'
          cases hb'
        · rw [hcontra.2] at hb'
          cases hb'
      · intro _
        have : (is_reply t && containsTrigger t.text) = false := by
          rcases hb' with hb' | hb' <;> simp [hb']
        simp [on_tweet, this]
  · unfold is_reply
    rcases ht : t.referenced_tweets with _ | l
    · simp
    · rcases l with _ | ⟨r, rest⟩
      · simp
      · simp only [beq_iff_eq, Option.some.injEq, List.cons.injEq]
        constructor
        · intro h
          exact ⟨r, rest, ⟨rfl, rfl⟩, h⟩
        · rintro ⟨r', rest', ⟨hr, _⟩, hty⟩
          rw [hr]
          exact hty

theorem filter_accepts_iff_first_ref_reply_witness :
    on_tweet envAllFail
      { id := 3, text := "hello there", referenced_tweets := none } =
      (.notTriggered, ⟨0, 0, 0, 0⟩) :=
  (filter_accepts_iff_first_ref_reply envAllFail
    { id := 3, text := "hello there", referenced_tweets := none }).1.mpr
    (by decide)
